import Mathlib

/-!
Verification development for the Movie-Rating-Platform frontend.

Shallow embedding of the three source files:
- src/frontend/src/pages/MovieList.js  (catalog view, variant B: fallback)
- src/unnamed/part_000                 (catalog view, variant A: dual panel)
- src/unnamed/part_001                 (ThemeContext / ThemeToggle)

Asynchronous fetches are modelled by passing their outcome explicitly:
a thrown promise is `Option.none`, a resolved response is `Option.some r`.
React state is modelled as a record, setState calls as record updates,
JSX conditions as Bool-valued display predicates over the record.
-/

namespace MoviePlatform

/-- A movie record as consumed by renderMovieCard in both variants.
Optional string fields model JS fields that may be absent; the JS
truthiness test on a string field (absent or empty string is falsy)
is `jsTruthy`. -/
structure Movie where
  id : Option String
  imdbID : Option String
  title : Option String
  description : Option String
  Plot : Option String
  average_rating : Option ℚ
  ratings_count : Nat
  imdbRating : Option String
  deriving Repr, DecidableEq

/-- JS truthiness of an optional string field: present and non-empty. -/
def jsTruthy : Option String → Bool
  | some s => !s.isEmpty
  | none => false

/-- Math.ceil(total / perPage) for a non-negative integer total and
perPage = 10, as computed at MovieList.js line 54 and part_000 line 49. -/
def computeTotalPages (total : Nat) : Nat :=
  (total + 10 - 1) / 10

/-- Response of movieService.getMovies: `\x7b results, count \x7d`. -/
structure DBResponse where
  results : List Movie
  count : Nat
  deriving Repr, DecidableEq

/-- The `data` object of a variant-B IMDB response; the `results` field
may be absent. -/
structure IMDBDataB where
  results : Option (List Movie)
  deriving Repr, DecidableEq

/-- A resolved variant-B IMDB response; the `data` field may be absent. -/
structure IMDBRespB where
  data : Option IMDBDataB
  deriving Repr, DecidableEq

/-- React state of the variant-B MovieList component
(src/frontend/src/pages/MovieList.js lines 7-13).
searchSource is `some "db"`, `some "imdb"`, or `none`. -/
structure StateB where
  movies : List Movie
  loading : Bool
  error : String
  searchTerm : String
  page : Nat
  totalPages : Nat
  searchSource : Option String
  deriving Repr, DecidableEq

/-- Initial variant-B state (useState initializers). -/
def initStateB : StateB :=
  { movies := [], loading := true, error := "", searchTerm := "",
    page := 1, totalPages := 1, searchSource := none }

/-- fetchMovies of variant B (MovieList.js lines 15-64), run to completion.
`dbOutcome` is the outcome of movieService.getMovies (none = thrown);
`imdbOutcome` the outcome of movieService.searchIMDB, consulted only on
the fallback path. State updates follow the source line by line:
setLoading(true) and setSearchSource(null) first; on a DB throw the catch
branch only sets the error text; otherwise the fallback branch runs when
the query is non-empty and the DB result list is empty, and setError('')
closes the try block; finally setLoading(false). -/
def fetchMoviesB (s : StateB) (searchQuery : String) (pageNum : Nat)
    (dbOutcome : Option DBResponse) (imdbOutcome : Option IMDBRespB) : StateB :=
  let s := { s with loading := true, searchSource := none }
  match dbOutcome with
  | none =>
      { s with error := "Failed to load movies", loading := false }
  | some response =>
      let s :=
        if !searchQuery.isEmpty && response.results.length == 0 then
          match imdbOutcome with
          | none =>
              { s with movies := [], searchSource := some "db" }
          | some imdbResponse =>
              match imdbResponse.data with
              | some d =>
                  match d.results with
                  | some rs =>
                      if rs.length > 0 then
                        { s with movies := rs, searchSource := some "imdb",
                                 totalPages := 1 }
                      else
                        { s with movies := [], searchSource := some "db" }
                  | none => { s with movies := [], searchSource := some "db" }
              | none => { s with movies := [], searchSource := some "db" }
        else
          { s with movies := response.results, searchSource := some "db",
                   totalPages := computeTotalPages response.count }
      { s with error := "", loading := false }

/-- The IMDB-provenance banner of variant B (MovieList.js line 150) is
rendered iff searchSource === 'imdb'. -/
def bannerShownB (s : StateB) : Bool :=
  s.searchSource == some "imdb"

/-- The pagination block of variant B (MovieList.js line 170) is rendered
iff totalPages > 1 and searchSource === 'db'. -/
def paginationShownB (s : StateB) : Bool :=
  decide (s.totalPages > 1) && (s.searchSource == some "db")

/-- The error banner of variant B (MovieList.js line 157) is rendered iff
the error string is truthy (non-empty). -/
def errorShownB (s : StateB) : Bool :=
  !s.error.isEmpty

/-- handleSearch of variant B (MovieList.js lines 71-75): reset page to 1,
then call fetchMovies(searchTerm, 1). Returns the updated state together
with the search text and page number the fetch is issued with. -/
def handleSearchB (s : StateB) : StateB × String × Nat :=
  ({ s with page := 1 }, s.searchTerm, 1)

/-- The `data` object of a variant-A IMDB response; the `description`
field (the result list in the legacy convention) may be absent. -/
structure IMDBDataA where
  description : Option (List Movie)
  deriving Repr, DecidableEq

/-- A resolved variant-A IMDB response; the `data` field may be absent. -/
structure IMDBRespA where
  data : Option IMDBDataA
  deriving Repr, DecidableEq

/-- React state of the variant-A MovieList component
(src/unnamed/part_000 lines 7-15): two fully separate panels, each with
its own result list, loading flag and error text. -/
structure StateA where
  dbMovies : List Movie
  imdbMovies : List Movie
  dbLoading : Bool
  imdbLoading : Bool
  dbError : String
  imdbError : String
  searchTerm : String
  page : Nat
  totalPages : Nat
  deriving Repr, DecidableEq

/-- Initial variant-A state (useState initializers). -/
def initStateA : StateA :=
  { dbMovies := [], imdbMovies := [], dbLoading := true, imdbLoading := true,
    dbError := "", imdbError := "", searchTerm := "", page := 1,
    totalPages := 1 }

/-- fetchFromDB of variant A (part_000 lines 32-59), run to completion on
outcome `dbOutcome` (none = thrown). On success it records the results,
the derived page count and clears the DB error; on a throw it sets the
DB error text and clears the DB results; the finally block drops the DB
loading flag. Only db-prefixed fields and totalPages are touched. -/
def fetchFromDB (s : StateA) (searchQuery : String) (pageNum : Nat)
    (dbOutcome : Option DBResponse) : StateA :=
  let s := { s with dbLoading := true }
  match dbOutcome with
  | some response =>
      { s with dbMovies := response.results,
               totalPages := computeTotalPages response.count,
               dbError := "", dbLoading := false }
  | none =>
      { s with dbError := "Failed to load movies from database",
               dbMovies := [], dbLoading := false }

/-- fetchFromIMDB of variant A (part_000 lines 62-83), run to completion
on outcome `imdbOutcome` (none = thrown). On a resolved response the
shape test `response.data && response.data.description` selects the
result list or empty, and the IMDB error is cleared; on a throw the IMDB
error text is set and the IMDB results cleared; the finally block drops
the IMDB loading flag. Only imdb-prefixed fields are touched: the panel
never changes page or totalPages. -/
def fetchFromIMDB (s : StateA) (imdbOutcome : Option IMDBRespA) : StateA :=
  let s := { s with imdbLoading := true }
  match imdbOutcome with
  | some response =>
      let s :=
        match response.data with
        | some d =>
            match d.description with
            | some rs => { s with imdbMovies := rs }
            | none => { s with imdbMovies := [] }
        | none => { s with imdbMovies := [] }
      { s with imdbError := "", imdbLoading := false }
  | none =>
      { s with imdbError := "Failed to load movies from IMDB",
               imdbMovies := [], imdbLoading := false }

/-- fetchMovies of variant A (part_000 lines 30-87): Promise.all over the
two panel fetches; they write disjoint state fields, so their settled
composition is order-independent (proved in fetchMoviesA_comm). -/
def fetchMoviesA (s : StateA) (searchQuery : String) (pageNum : Nat)
    (dbOutcome : Option DBResponse) (imdbOutcome : Option IMDBRespA) : StateA :=
  fetchFromIMDB (fetchFromDB s searchQuery pageNum dbOutcome) imdbOutcome

/-- The DB-panel error banner of variant A (part_000 line 176) is rendered
iff dbError is truthy (non-empty). -/
def dbErrorShownA (s : StateA) : Bool :=
  !s.dbError.isEmpty

/-- The IMDB-panel error banner of variant A (part_000 line 216) is
rendered iff imdbError is truthy (non-empty). -/
def imdbErrorShownA (s : StateA) : Bool :=
  !s.imdbError.isEmpty

/-- The pagination block of variant A (part_000 line 189) sits in the DB
section and is rendered iff totalPages > 1. The IMDB section (lines
212-227) contains no pagination element at all. -/
def paginationShownA (s : StateA) : Bool :=
  decide (s.totalPages > 1)

/-- handleSearch of variant A (part_000 lines 94-98): reset page to 1,
then call fetchMovies(searchTerm, 1). Returns the updated state together
with the search text and page number the fetch pair is issued with. -/
def handleSearchA (s : StateA) : StateA × String × Nat :=
  ({ s with page := 1 }, s.searchTerm, 1)

/-- The ten hard-coded thematic words of getRandomQuery
(part_000 line 19). -/
def randomWords : List String :=
  ["action", "love", "war", "adventure", "comedy", "drama", "hero",
   "legend", "dark", "the"]

/-- The lowercase alphabet of getRandomQuery (part_000 line 20). -/
def randomLetters : List Char :=
  ['a', 'b', 'c', 'd', 'e', 'f', 'g', 'h', 'i', 'j', 'k', 'l', 'm',
   'n', 'o', 'p', 'q', 'r', 's', 't', 'u', 'v', 'w', 'x', 'y', 'z']

/-- getRandomQuery of variant A (part_000 lines 18-28). The two
Math.random() draws are passed explicitly as rationals in [0, 1)
(IEEE doubles embed exactly into ℚ): `r1` is the coin (words iff
r1 > 0.5), `r2` the index draw, floored after scaling by the list
length exactly as in the source. Indexing a JS string yields a
one-character string, hence String.singleton. -/
def getRandomQuery (r1 r2 : ℚ) : String :=
  if r1 > 0.5 then
    randomWords.getD (Int.toNat ⌊r2 * 10⌋) ""
  else
    String.singleton (randomLetters.getD (Int.toNat ⌊r2 * 26⌋) ' ')

/-- The query used by fetchFromIMDB (part_000 line 66):
searchQuery || getRandomQuery(). -/
def imdbQuery (searchQuery : String) (r1 r2 : ℚ) : String :=
  if searchQuery.isEmpty then getRandomQuery r1 r2 else searchQuery

/-- The 150-character truncation applied to one resolved description
string (MovieList.js lines 99-101 and 103-105; identical in part_000
lines 121-123 and 125-127): strings longer than 150 characters are cut
to their first 150 characters plus an ellipsis marker. -/
def truncateDescription (s : String) : String :=
  if s.length > 150 then (s.take 150) ++ "..." else s

/-- The description text of a movie card (MovieList.js lines 97-107 and
part_000 lines 119-129): movie.description if truthy, else movie.Plot if
truthy, else the literal placeholder. -/
def renderDescription (m : Movie) : String :=
  if jsTruthy m.description then truncateDescription (m.description.getD "")
  else if jsTruthy m.Plot then truncateDescription (m.Plot.getD "")
  else "No description available"

/-- The ratings-count label of a locally-sourced movie card
(MovieList.js lines 114-116 and part_000 lines 136-138):
`N rating` when ratings_count === 1, else `N ratings`. -/
def ratingsCountLabel (n : Nat) : String :=
  toString n ++ " " ++ (if n == 1 then "rating" else "ratings")

/-- Persistent client storage for the theme: the single localStorage key
is modelled as an optional stored string (none = key absent). -/
def ThemeStorage : Type := Option String

/-- The useState initializer of ThemeProvider (part_001 lines 15-18):
localStorage.getItem('theme') || 'dark'. A stored empty string is falsy
in JS and also falls back to the default. -/
def themeInit (storage : ThemeStorage) : String :=
  match storage with
  | some saved => if saved.isEmpty then "dark" else saved
  | none => "dark"

/-- changeTheme of ThemeProvider (part_001 lines 44-47): set the
in-memory theme and synchronously write it to storage. Returns the new
in-memory theme together with the new storage contents. -/
def changeTheme (newTheme : String) (storage : ThemeStorage) :
    String × ThemeStorage :=
  (newTheme, some newTheme)

/-- The three theme preference values offered by ThemeToggle
(part_001, themes array). -/
def themeValues : List String := ["dark", "light", "system"]

/-! ### Helper lemmas -/

/-- The JS page-count computation agrees with the mathematical ceiling of
count / 10 over ℚ. -/
lemma computeTotalPages_eq_ceil (C : ℕ) :
    (computeTotalPages C : ℤ) = ⌈(C : ℚ) / 10⌉ := by
  have hq1 : C ≤ 10 * computeTotalPages C := by
    unfold computeTotalPages; omega
  have hq2 : 10 * computeTotalPages C < C + 10 := by
    unfold computeTotalPages; omega
  rw [eq_comm, Int.ceil_eq_iff]
  have h1 : (C : ℚ) ≤ 10 * computeTotalPages C := by exact_mod_cast hq1
  have h2 : (10 * computeTotalPages C : ℚ) < C + 10 := by exact_mod_cast hq2
  constructor
  · rw [lt_div_iff₀ (by norm_num : (0:ℚ) < 10)]
    push_cast
    linarith
  · rw [div_le_iff₀ (by norm_num : (0:ℚ) < 10)]
    push_cast
    linarith

/-- The empty string is empty; used to discharge errorShownB goals. -/
lemma empty_isEmpty : "".isEmpty = true := rfl

/-- A minimal concrete movie used in closed witness statements. -/
def sampleMovie : Movie :=
  { id := none, imdbID := some "tt1", title := none, description := none,
    Plot := none, average_rating := none, ratings_count := 0,
    imdbRating := none }

/-- String concatenation is associative (on the underlying data). -/
lemma string_append_assoc (a b c : String) : a ++ b ++ c = a ++ (b ++ c) := by
  apply String.ext
  simp [String.data_append, List.append_assoc]

/-! ### Claim theorems -/

/-- C1, counterexample. The claim asserts a total page count of at least
one after every DB fetch, in particular one page for a zero total count.
In both variants a successful DB fetch with count = 0 stores
Math.ceil(0 / 10) = 0 in totalPages, not 1. -/
theorem C1_counterexample :
    (fetchMoviesB initStateB "" 1 (some { results := [], count := 0 }) none).totalPages = 0 ∧
    ¬ 1 ≤ (fetchMoviesB initStateB "" 1 (some { results := [], count := 0 }) none).totalPages ∧
    (fetchFromDB initStateA "" 1 (some { results := [], count := 0 })).totalPages = 0 ∧
    ¬ 1 ≤ (fetchFromDB initStateA "" 1 (some { results := [], count := 0 })).totalPages := by
  refine ⟨rfl, by decide, rfl, by decide⟩

/-- C1, amended: after every successful DB fetch, the stored total page
count equals ceil(C / 10) for the returned count C; it is at least 1
exactly when C ≥ 1, and C = 0 yields 0 pages (the initial state, never
overwritten by a fetch, is 1). In variant B this covers every fetch that
takes the non-fallback path; the fallback path stores the constant 1. -/
theorem C1_totalPages_eq_ceil (sA : StateA) (sB : StateB) (q : String)
    (p : Nat) (resp : DBResponse) (io : Option IMDBRespB) :
    (fetchFromDB sA q p (some resp)).totalPages = computeTotalPages resp.count ∧
    (q.isEmpty = true ∨ resp.results ≠ [] →
      (fetchMoviesB sB q p (some resp) io).totalPages = computeTotalPages resp.count) ∧
    ((computeTotalPages resp.count : ℤ) = ⌈(resp.count : ℚ) / 10⌉) ∧
    (1 ≤ resp.count → 1 ≤ computeTotalPages resp.count) ∧
    (resp.count = 0 → computeTotalPages resp.count = 0) := by
  refine ⟨rfl, ?_, computeTotalPages_eq_ceil _, ?_, ?_⟩
  · rintro (hq | hr)
    · simp [fetchMoviesB, hq]
    · have : (resp.results.length == 0) = false := by
        simpa [List.length_eq_zero] using hr
      simp [fetchMoviesB, this]
  · intro h; unfold computeTotalPages; omega
  · intro h; unfold computeTotalPages; omega

/-- C1, witness for the amended theorem at a concrete input: a count of
11 with an empty query yields ceil(11 / 10) = 2 pages in both variants. -/
theorem C1_totalPages_witness :
    (fetchMoviesB initStateB "" 1 (some { results := [], count := 11 }) none).totalPages = 2 ∧
    (fetchFromDB initStateA "" 1 (some { results := [], count := 11 })).totalPages = 2 := by
  have h := C1_totalPages_eq_ceil initStateA initStateB "" 1
    { results := [], count := 11 } none
  refine ⟨?_, ?_⟩
  · rw [h.2.1 (Or.inl rfl)]; rfl
  · rw [h.1]; rfl

/-- C7: in both variants, submitting the search form resets the page to 1
and issues the fetch with page 1 and the current search text; the search
text itself is left unchanged. -/
theorem C7_handleSearch_resets_page (sA : StateA) (sB : StateB) :
    (handleSearchA sA).1.page = 1 ∧
    (handleSearchA sA).2 = (sA.searchTerm, 1) ∧
    (handleSearchA sA).1.searchTerm = sA.searchTerm ∧
    (handleSearchB sB).1.page = 1 ∧
    (handleSearchB sB).2 = (sB.searchTerm, 1) ∧
    (handleSearchB sB).1.searchTerm = sB.searchTerm :=
  ⟨rfl, rfl, rfl, rfl, rfl, rfl⟩

/-- C9: the ratings-count label uses the singular noun exactly for a
count of 1 and the plural noun for every other count, including 0. -/
theorem C9_ratings_pluralization :
    ratingsCountLabel 1 = "1 rating" ∧
    ratingsCountLabel 0 = "0 ratings" ∧
    (∀ n : Nat, n ≠ 1 → ratingsCountLabel n = toString n ++ " ratings") := by
  refine ⟨rfl, rfl, fun n hn => ?_⟩
  have hb : (n == 1) = false := by simpa using hn
  simp only [ratingsCountLabel, hb, Bool.false_eq_true, if_false]
  rw [string_append_assoc]
  rfl

/-- C9, witness: a count of 2 yields the plural label. -/
theorem C9_ratings_pluralization_witness : ratingsCountLabel 2 = "2 ratings" := by
  rw [C9_ratings_pluralization.2.2 2 (by decide)]
  rfl

/-- C10: when the variant-B DB fetch throws, the catch branch sets the
error text and drops the loading flag but leaves the displayed movie
list, page, total pages and search text unchanged; searchSource stays at
the null value written at fetch start, so neither the pagination block
nor the external-source banner is rendered afterwards. -/
theorem C10_db_failure_frame (s : StateB) (q : String) (p : Nat)
    (io : Option IMDBRespB) :
    (fetchMoviesB s q p none io).movies = s.movies ∧
    (fetchMoviesB s q p none io).error = "Failed to load movies" ∧
    errorShownB (fetchMoviesB s q p none io) = true ∧
    (fetchMoviesB s q p none io).searchSource = none ∧
    bannerShownB (fetchMoviesB s q p none io) = false ∧
    paginationShownB (fetchMoviesB s q p none io) = false ∧
    (fetchMoviesB s q p none io).totalPages = s.totalPages ∧
    (fetchMoviesB s q p none io).page = s.page ∧
    (fetchMoviesB s q p none io).searchTerm = s.searchTerm ∧
    (fetchMoviesB s q p none io).loading = false := by
  refine ⟨rfl, rfl, rfl, rfl, rfl, ?_, rfl, rfl, rfl, rfl⟩
  simp [paginationShownB, fetchMoviesB]

/-- C2: variant-B fallback behaviour on a non-empty query with zero DB
results. A non-empty external result list is displayed with provenance
imdb, pagination forced to one page and the banner shown; an external
response with a missing or empty shape, or a thrown external fetch,
displays an empty list with provenance db, no banner and no error text
beyond the ordinary no-results state. -/
theorem C2_fallback_behaviour (s : StateB) (q : String) (p : Nat)
    (resp : DBResponse) (io : Option IMDBRespB)
    (hq : q.isEmpty = false) (hr : resp.results = []) :
    (∀ rs : List Movie, io = some ⟨some ⟨some rs⟩⟩ → rs ≠ [] →
      (fetchMoviesB s q p (some resp) io).movies = rs ∧
      (fetchMoviesB s q p (some resp) io).searchSource = some "imdb" ∧
      (fetchMoviesB s q p (some resp) io).totalPages = 1 ∧
      bannerShownB (fetchMoviesB s q p (some resp) io) = true ∧
      paginationShownB (fetchMoviesB s q p (some resp) io) = false ∧
      (fetchMoviesB s q p (some resp) io).error = "" ∧
      errorShownB (fetchMoviesB s q p (some resp) io) = false) ∧
    (io = none ∨ io = some ⟨none⟩ ∨ io = some ⟨some ⟨none⟩⟩ ∨
        io = some ⟨some ⟨some []⟩⟩ →
      (fetchMoviesB s q p (some resp) io).movies = [] ∧
      (fetchMoviesB s q p (some resp) io).searchSource = some "db" ∧
      bannerShownB (fetchMoviesB s q p (some resp) io) = false ∧
      (fetchMoviesB s q p (some resp) io).error = "" ∧
      errorShownB (fetchMoviesB s q p (some resp) io) = false) := by
  have hcond : (!q.isEmpty && resp.results.length == 0) = true := by
    simp [hq, hr]
  constructor
  · rintro rs rfl hrs
    have hlen : (0 < rs.length) = True := by
      simpa using List.length_pos.mpr hrs
    simp [fetchMoviesB, hcond, hlen, bannerShownB, paginationShownB,
      errorShownB, empty_isEmpty]
  · rintro (rfl | rfl | rfl | rfl) <;>
      simp [fetchMoviesB, hcond, bannerShownB, paginationShownB, errorShownB,
        empty_isEmpty]

/-- C2, witness at a concrete input: query z with an empty DB result and
a one-element external list displays that list from the external source
with the banner; the same query with a thrown external fetch displays an
empty list from the db source without a banner. -/
theorem C2_fallback_witness :
    (fetchMoviesB initStateB "z" 1 (some { results := [], count := 0 })
        (some ⟨some ⟨some [sampleMovie]⟩⟩)).searchSource = some "imdb" ∧
    (fetchMoviesB initStateB "z" 1 (some { results := [], count := 0 })
        none).searchSource = some "db" := by
  constructor
  · exact ((C2_fallback_behaviour initStateB "z" 1 { results := [], count := 0 }
      (some ⟨some ⟨some [sampleMovie]⟩⟩) rfl rfl).1
      [sampleMovie] rfl (by simp)).2.1
  · exact ((C2_fallback_behaviour initStateB "z" 1 { results := [], count := 0 }
      none rfl rfl).2 (Or.inl rfl)).2.1

/-- C3, counterexample. The claim asserts that a malformed or missing
response shape (no data.description) makes the variant-A external panel
show an error message. In the code that branch only clears the result
list and then clears the error text, so no error message is rendered. -/
theorem C3_counterexample :
    (fetchFromIMDB initStateA (some ⟨none⟩)).imdbMovies = [] ∧
    (fetchFromIMDB initStateA (some ⟨none⟩)).imdbError = "" ∧
    imdbErrorShownA (fetchFromIMDB initStateA (some ⟨none⟩)) = false := by
  refine ⟨rfl, rfl, rfl⟩

/-- C3, amended: a thrown external fetch shows empty results with the
IMDB error message; a resolved response with a malformed or missing
shape shows empty results with the error cleared (no error message, the
empty-state notice renders instead); in both cases the external panel
never paginates: it leaves page and totalPages untouched and the IMDB
section contains no pagination control. -/
theorem C3_imdb_panel_failure (s : StateA) (io : Option IMDBRespA) :
    (io = none →
      (fetchFromIMDB s io).imdbMovies = [] ∧
      (fetchFromIMDB s io).imdbError = "Failed to load movies from IMDB" ∧
      imdbErrorShownA (fetchFromIMDB s io) = true) ∧
    (io = some ⟨none⟩ ∨ io = some ⟨some ⟨none⟩⟩ →
      (fetchFromIMDB s io).imdbMovies = [] ∧
      (fetchFromIMDB s io).imdbError = "" ∧
      imdbErrorShownA (fetchFromIMDB s io) = false) ∧
    (fetchFromIMDB s io).page = s.page ∧
    (fetchFromIMDB s io).totalPages = s.totalPages := by
  refine ⟨?_, ?_, ?_, ?_⟩
  · rintro rfl
    exact ⟨rfl, rfl, rfl⟩
  · rintro (rfl | rfl) <;> exact ⟨rfl, rfl, rfl⟩
  · cases io with
    | none => rfl
    | some r =>
        cases hr : r.data with
        | none => simp [fetchFromIMDB, hr]
        | some d => cases hd : d.description <;> simp [fetchFromIMDB, hr, hd]
  · cases io with
    | none => rfl
    | some r =>
        cases hr : r.data with
        | none => simp [fetchFromIMDB, hr]
        | some d => cases hd : d.description <;> simp [fetchFromIMDB, hr, hd]

/-- C3, witness at concrete inputs: a thrown fetch yields the error
message, a response with an absent data field yields no error, and
neither changes the page state. -/
theorem C3_imdb_panel_failure_witness :
    (fetchFromIMDB initStateA none).imdbError = "Failed to load movies from IMDB" ∧
    (fetchFromIMDB initStateA (some ⟨none⟩)).imdbError = "" ∧
    (fetchFromIMDB initStateA (some ⟨none⟩)).totalPages = initStateA.totalPages := by
  refine ⟨((C3_imdb_panel_failure initStateA none).1 rfl).2.1,
    ((C3_imdb_panel_failure initStateA (some ⟨none⟩)).2.1 (Or.inl rfl)).2.1,
    (C3_imdb_panel_failure initStateA (some ⟨none⟩)).2.2.2⟩

/-- C8: on first load the theme preference equals the stored value when
one of the three preference values is stored (more generally any
non-empty stored string) and defaults to dark when the key is absent;
changeTheme writes the new value to storage, so a simulated reload after
changeTheme light yields preference light. -/
theorem C8_theme_persistence :
    (∀ s : String, s ∈ themeValues → themeInit (some s) = s) ∧
    (∀ s : String, s.isEmpty = false → themeInit (some s) = s) ∧
    themeInit none = "dark" ∧
    (∀ (st : ThemeStorage) (nt : String), (changeTheme nt st).2 = some nt) ∧
    (∀ st : ThemeStorage, themeInit (changeTheme "light" st).2 = "light") := by
  refine ⟨?_, ?_, rfl, fun st nt => rfl, fun st => rfl⟩
  · intro s hs
    simp only [themeValues, List.mem_cons, List.not_mem_nil, or_false] at hs
    rcases hs with rfl | rfl | rfl <;> rfl
  · intro s hs
    simp [themeInit, hs]

/-- C8, witness: the stored value light is read back verbatim, and after
changeTheme light a reload (with no prior storage) yields light. -/
theorem C8_theme_persistence_witness :
    themeInit (some "light") = "light" ∧
    themeInit (changeTheme "light" none).2 = "light" := by
  refine ⟨C8_theme_persistence.1 "light" (by simp [themeValues]),
    C8_theme_persistence.2.2.2.2 none⟩

/-- C4: variant-A panel isolation. A DB failure concurrent with an IMDB
success leaves the IMDB panel fully rendered with no IMDB error, and
vice versa; moreover the IMDB-side fields never depend on the DB outcome,
the DB-side fields never depend on the IMDB outcome, and the two settled
fetches commute, so the panels share no error state, no loading flag and
no result list. -/
theorem C4_panel_isolation (s : StateA) (q : String) (p : Nat)
    (resp : DBResponse) (rs : List Movie) :
    ((fetchMoviesA s q p none (some ⟨some ⟨some rs⟩⟩)).dbError =
        "Failed to load movies from database" ∧
      dbErrorShownA (fetchMoviesA s q p none (some ⟨some ⟨some rs⟩⟩)) = true ∧
      (fetchMoviesA s q p none (some ⟨some ⟨some rs⟩⟩)).dbMovies = [] ∧
      (fetchMoviesA s q p none (some ⟨some ⟨some rs⟩⟩)).imdbMovies = rs ∧
      (fetchMoviesA s q p none (some ⟨some ⟨some rs⟩⟩)).imdbError = "" ∧
      imdbErrorShownA (fetchMoviesA s q p none (some ⟨some ⟨some rs⟩⟩)) = false ∧
      (fetchMoviesA s q p none (some ⟨some ⟨some rs⟩⟩)).dbLoading = false ∧
      (fetchMoviesA s q p none (some ⟨some ⟨some rs⟩⟩)).imdbLoading = false) ∧
    ((fetchMoviesA s q p (some resp) none).dbMovies = resp.results ∧
      (fetchMoviesA s q p (some resp) none).totalPages =
        computeTotalPages resp.count ∧
      (fetchMoviesA s q p (some resp) none).dbError = "" ∧
      dbErrorShownA (fetchMoviesA s q p (some resp) none) = false ∧
      (fetchMoviesA s q p (some resp) none).imdbError =
        "Failed to load movies from IMDB" ∧
      imdbErrorShownA (fetchMoviesA s q p (some resp) none) = true ∧
      (fetchMoviesA s q p (some resp) none).imdbMovies = [] ∧
      (fetchMoviesA s q p (some resp) none).dbLoading = false ∧
      (fetchMoviesA s q p (some resp) none).imdbLoading = false) ∧
    (∀ (dbO dbO' : Option DBResponse) (io : Option IMDBRespA),
      (fetchMoviesA s q p dbO io).imdbMovies =
        (fetchMoviesA s q p dbO' io).imdbMovies ∧
      (fetchMoviesA s q p dbO io).imdbError =
        (fetchMoviesA s q p dbO' io).imdbError ∧
      (fetchMoviesA s q p dbO io).imdbLoading =
        (fetchMoviesA s q p dbO' io).imdbLoading) ∧
    (∀ (dbO : Option DBResponse) (io io' : Option IMDBRespA),
      (fetchMoviesA s q p dbO io).dbMovies =
        (fetchMoviesA s q p dbO io').dbMovies ∧
      (fetchMoviesA s q p dbO io).dbError =
        (fetchMoviesA s q p dbO io').dbError ∧
      (fetchMoviesA s q p dbO io).dbLoading =
        (fetchMoviesA s q p dbO io').dbLoading ∧
      (fetchMoviesA s q p dbO io).totalPages =
        (fetchMoviesA s q p dbO io').totalPages) ∧
    (∀ (dbO : Option DBResponse) (io : Option IMDBRespA),
      fetchFromIMDB (fetchFromDB s q p dbO) io =
        fetchFromDB (fetchFromIMDB s io) q p dbO) := by
  refine ⟨⟨rfl, rfl, rfl, rfl, rfl, rfl, rfl, rfl⟩,
    ⟨rfl, rfl, rfl, rfl, rfl, rfl, rfl, rfl, rfl⟩, ?_, ?_, ?_⟩
  · intro dbO dbO' io
    rcases dbO with _ | ⟨rres, rcount⟩ <;>
      rcases dbO' with _ | ⟨rres', rcount'⟩ <;>
      rcases io with _ | ⟨_ | ⟨_ | irs⟩⟩ <;>
      exact ⟨rfl, rfl, rfl⟩
  · intro dbO io io'
    rcases dbO with _ | ⟨rres, rcount⟩ <;>
      rcases io with _ | ⟨_ | ⟨_ | irs⟩⟩ <;>
      rcases io' with _ | ⟨_ | ⟨_ | irs'⟩⟩ <;>
      exact ⟨rfl, rfl, rfl, rfl⟩
  · intro dbO io
    rcases dbO with _ | ⟨rres, rcount⟩ <;>
      rcases io with _ | ⟨_ | ⟨_ | irs⟩⟩ <;> rfl

/-- C5: card description rendering in both variants. When the description
field resolves (present and non-empty) with length L, the displayed text
is the string itself for L up to 150 (including exactly 150) and its
first 150 characters plus an ellipsis for L above 150; the same holds
when only the Plot field resolves; when neither resolves the literal
placeholder is displayed. -/
theorem C5_description_truncation (m : Movie) :
    (∀ s : String, m.description = some s → s.isEmpty = false →
      (s.length ≤ 150 → renderDescription m = s) ∧
      (150 < s.length → renderDescription m = s.take 150 ++ "...")) ∧
    (∀ s : String, jsTruthy m.description = false → m.Plot = some s →
        s.isEmpty = false →
      (s.length ≤ 150 → renderDescription m = s) ∧
      (150 < s.length → renderDescription m = s.take 150 ++ "...")) ∧
    (jsTruthy m.description = false → jsTruthy m.Plot = false →
      renderDescription m = "No description available") := by
  refine ⟨?_, ?_, ?_⟩
  · intro s hd hs
    constructor
    · intro hle
      have hn : ¬ s.length > 150 := by omega
      simp [renderDescription, hd, jsTruthy, hs, truncateDescription, hn]
    · intro hgt
      simp [renderDescription, hd, jsTruthy, hs, truncateDescription, hgt]
  · intro s hdf hp hs
    constructor
    · intro hle
      have hn : ¬ s.length > 150 := by omega
      unfold renderDescription
      rw [hdf, hp]
      simp [jsTruthy, hs, truncateDescription, hn]
    · intro hgt
      unfold renderDescription
      rw [hdf, hp]
      simp [jsTruthy, hs, truncateDescription, hgt]
  · intro hdf hpf
    simp [renderDescription, hdf, hpf]

set_option maxRecDepth 8192 in
/-- C5, witness: a 150-character description is displayed verbatim, a
151-character description is cut to 150 characters plus the ellipsis,
and a movie with neither description nor Plot shows the placeholder. -/
theorem C5_description_truncation_witness :
    renderDescription { sampleMovie with
        description := some (String.mk (List.replicate 150 'a')) } =
      String.mk (List.replicate 150 'a') ∧
    renderDescription { sampleMovie with
        description := some (String.mk (List.replicate 151 'a')) } =
      (String.mk (List.replicate 151 'a')).take 150 ++ "..." ∧
    renderDescription sampleMovie = "No description available" := by
  refine ⟨?_, ?_, ?_⟩
  · exact ((C5_description_truncation _).1 (String.mk (List.replicate 150 'a'))
      rfl (by decide)).1 (by decide)
  · exact ((C5_description_truncation _).1 (String.mk (List.replicate 151 'a'))
      rfl (by decide)).2 (by decide)
  · exact (C5_description_truncation sampleMovie).2.2 rfl rfl

/-- The floored scaled draw Math.floor(r * n) lands inside the list for
a draw in [0, 1). -/
lemma floor_scaled_lt (r : ℚ) (n : ℕ) (h0 : 0 ≤ r) (h1 : r < 1)
    (hn : 0 < n) : Int.toNat ⌊r * n⌋ < n := by
  have hnn : (0 : ℤ) ≤ ⌊r * n⌋ := Int.floor_nonneg.mpr (by positivity)
  have hcast : (0:ℚ) < (n:ℚ) := by exact_mod_cast hn
  have hlt : ⌊r * n⌋ < (n : ℤ) := by
    rw [Int.floor_lt]
    push_cast
    nlinarith
  omega

/-- A one-character string is never one of the ten thematic words. -/
lemma singleton_not_mem_randomWords (c : Char) :
    String.singleton c ∉ randomWords := by
  intro h
  simp only [randomWords, List.mem_cons, List.not_mem_nil, or_false] at h
  rcases h with h | h | h | h | h | h | h | h | h | h <;>
    · have hlen := congrArg String.length h
      rw [String.length_singleton] at hlen
      exact absurd hlen (by decide)

/-- C6: the browse-mode query policy of the variant-A external panel.
With an empty search text the fetch query is exactly getRandomQuery; its
output is one of the ten thematic words precisely when the first draw
exceeds 0.5, and a single lowercase letter of the alphabet otherwise, so
every possible output lies in the union of the two sets; under the
uniform distribution of Math.random on [0, 1), each branch of the coin
has measure exactly one half. -/
theorem C6_random_query_policy :
    (∀ (q : String) (r1 r2 : ℚ), q.isEmpty = true →
      imdbQuery q r1 r2 = getRandomQuery r1 r2) ∧
    (∀ r1 r2 : ℚ, 0 ≤ r2 → r2 < 1 →
      (getRandomQuery r1 r2 ∈ randomWords ↔ 0.5 < r1)) ∧
    (∀ r1 r2 : ℚ, 0 ≤ r2 → r2 < 1 → ¬ 0.5 < r1 →
      ∃ c ∈ randomLetters, getRandomQuery r1 r2 = String.singleton c) ∧
    (∀ r1 r2 : ℚ, 0 ≤ r2 → r2 < 1 →
      getRandomQuery r1 r2 ∈ randomWords ∨
        ∃ c ∈ randomLetters, getRandomQuery r1 r2 = String.singleton c) ∧
    MeasureTheory.volume {x : ℝ | x ∈ Set.Ico (0:ℝ) 1 ∧ 1/2 < x} =
      ENNReal.ofReal (1/2) ∧
    MeasureTheory.volume {x : ℝ | x ∈ Set.Ico (0:ℝ) 1 ∧ ¬ 1/2 < x} =
      ENNReal.ofReal (1/2) := by
  have hword : ∀ r1 r2 : ℚ, 0 ≤ r2 → r2 < 1 → 0.5 < r1 →
      getRandomQuery r1 r2 ∈ randomWords := by
    intro r1 r2 h0 h1 hc
    have hidx : Int.toNat ⌊r2 * 10⌋ < randomWords.length :=
      floor_scaled_lt r2 10 h0 h1 (by norm_num)
    rw [getRandomQuery, if_pos hc, List.getD_eq_getElem _ _ hidx]
    exact List.getElem_mem hidx
  have hletter : ∀ r1 r2 : ℚ, 0 ≤ r2 → r2 < 1 → ¬ 0.5 < r1 →
      ∃ c ∈ randomLetters, getRandomQuery r1 r2 = String.singleton c := by
    intro r1 r2 h0 h1 hc
    have hidx : Int.toNat ⌊r2 * 26⌋ < randomLetters.length :=
      floor_scaled_lt r2 26 h0 h1 (by norm_num)
    refine ⟨randomLetters[Int.toNat ⌊r2 * 26⌋], List.getElem_mem hidx, ?_⟩
    rw [getRandomQuery, if_neg hc, List.getD_eq_getElem _ _ hidx]
  refine ⟨?_, ?_, hletter, ?_, ?_, ?_⟩
  · intro q r1 r2 hq
    simp [imdbQuery, hq]
  · intro r1 r2 h0 h1
    constructor
    · intro hmem
      by_contra hc
      obtain ⟨c, _, hceq⟩ := hletter r1 r2 h0 h1 hc
      rw [hceq] at hmem
      exact singleton_not_mem_randomWords c hmem
    · exact hword r1 r2 h0 h1
  · intro r1 r2 h0 h1
    by_cases hc : 0.5 < r1
    · exact Or.inl (hword r1 r2 h0 h1 hc)
    · exact Or.inr (hletter r1 r2 h0 h1 hc)
  · have hset : {x : ℝ | x ∈ Set.Ico (0:ℝ) 1 ∧ 1/2 < x} =
        Set.Ioo (1/2 : ℝ) 1 := by
      ext x
      simp only [Set.mem_setOf_eq, Set.mem_Ico, Set.mem_Ioo]
      constructor
      · rintro ⟨⟨_, hx1⟩, hx2⟩
        exact ⟨hx2, hx1⟩
      · rintro ⟨hx2, hx1⟩
        exact ⟨⟨by linarith, hx1⟩, hx2⟩
    rw [hset, Real.volume_Ioo]
    norm_num
  · have hset : {x : ℝ | x ∈ Set.Ico (0:ℝ) 1 ∧ ¬ 1/2 < x} =
        Set.Icc (0 : ℝ) (1/2) := by
      ext x
      simp only [Set.mem_setOf_eq, Set.mem_Ico, Set.mem_Icc, not_lt]
      constructor
      · rintro ⟨⟨hx0, _⟩, hx2⟩
        exact ⟨hx0, hx2⟩
      · rintro ⟨hx0, hx2⟩
        exact ⟨⟨hx0, by linarith⟩, hx2⟩
    rw [hset, Real.volume_Icc]
    norm_num

/-- C6, witness at concrete draws: with an empty query and coin draw 3/5
the query is the third thematic word, and with coin draw 1/2 (not above
0.5) it is the letter n. -/
theorem C6_random_query_policy_witness :
    imdbQuery "" (3/5) (1/4) = getRandomQuery (3/5) (1/4) ∧
    getRandomQuery (3/5) (1/4) ∈ randomWords ∧
    getRandomQuery (3/5) (1/4) = "war" ∧
    getRandomQuery (1/2) (1/2) = "n" := by
  refine ⟨C6_random_query_policy.1 "" (3/5) (1/4) rfl,
    (C6_random_query_policy.2.1 (3/5) (1/4) (by norm_num) (by norm_num)).mpr
      (by norm_num), ?_, ?_⟩
  · norm_num [getRandomQuery, randomWords]
    rfl
  · norm_num [getRandomQuery, randomLetters]
    rfl

end MoviePlatform

